import Mathlib

/-!
Verification of the question-answering orchestration pipeline of the
Fleetworthy sales-assistant backend.

The development shallowly embeds the Python sources:
  - `app.py` (topic gate `is_fleetworthy_related`, orchestrator
    `generate_ai_response_async`, endpoint `chat`, `allowed_file`,
    `validate_url`);
  - `agents/research_agent.py` (`SimpleResearchAgent`, `MCPResearchAgent`,
    `create_research_agent`);
  - `services/knowledge_base.py` (`search_knowledge`, `get_relevant_context`,
    `generate_enhanced_response`).

External collaborators (the OpenAI Agents SDK runner, ChromaDB similarity
search, the OpenAI completion endpoint, base64 decoding, the filesystem) are
modelled as oracle fields of explicit world structures; a collaborator call
that can raise a Python exception is an `Except`-valued oracle.  Python
strings are `String`, with code-point level operations implemented over
`String.data` so that every definition evaluates inside the kernel.
-/

/-! ### Code-point string primitives (models of Python string operations) -/

/-- Model of Python `str.lower()`: lowercase each code point. -/
def pyLower (s : String) : String :=
  String.mk (s.data.map Char.toLower)

/-- Python `len` on a string counts code points. -/
def pyLen (s : String) : Nat :=
  s.data.length

/-- Model of Python `str.strip()`: drop whitespace from both ends. -/
def pyStrip (s : String) : String :=
  String.mk (((s.data.dropWhile Char.isWhitespace).reverse.dropWhile Char.isWhitespace).reverse)

/-- `leadsWith n h` decides whether the char list `n` starts the char list `h`. -/
def leadsWith : List Char → List Char → Bool
  | [], _ => true
  | _ :: _, [] => false
  | a :: as, b :: bs => a == b && leadsWith as bs

/-- `occursIn n h` decides whether `n` occurs contiguously inside `h`;
this models the Python `in` operator on strings. -/
def occursIn (n : List Char) : List Char → Bool
  | [] => leadsWith n []
  | b :: bs => leadsWith n (b :: bs) || occursIn n bs

/-- Python substring test `needle in haystack`. -/
def substrIn (needle haystack : String) : Bool :=
  occursIn needle.data haystack.data

/-- Model of Python `sep.join(parts)`. -/
def joinWith (sep : String) : List String → String
  | [] => ""
  | [part] => part
  | part :: rest => part ++ sep ++ joinWith sep rest

theorem leadsWith_iff (n h : List Char) : leadsWith n h = true ↔ ∃ t, n ++ t = h := by
  induction n generalizing h with
  | nil => simp [leadsWith]
  | cons a as ih =>
    cases h with
    | nil => simp [leadsWith]
    | cons b bs => simp [leadsWith, ih bs, eq_comm (a := a) (b := b)]

theorem occursIn_iff (n h : List Char) :
    occursIn n h = true ↔ ∃ pre post, pre ++ n ++ post = h := by
  induction h with
  | nil => simp [occursIn, leadsWith_iff]
  | cons b bs ih =>
    simp [occursIn, Bool.or_eq_true, leadsWith_iff, ih]
    constructor
    · rintro (⟨t, ht⟩ | ⟨pre, post, hp⟩)
      · exact ⟨[], t, by simpa using ht⟩
      · exact ⟨b :: pre, post, by simp [← hp]⟩
    · rintro ⟨pre, post, hp⟩
      cases pre with
      | nil => exact Or.inl ⟨post, by simpa using hp⟩
      | cons p ps =>
        injection hp with h1 h2
        exact Or.inr ⟨ps, post, h2⟩

theorem str_data_append (a b : String) : (a ++ b).data = a.data ++ b.data := by
  cases a; cases b; rfl

theorem str_eq_empty_iff (s : String) : s = "" ↔ s.data = [] := by
  cases s with
  | mk l =>
    constructor
    · intro h
      rw [h]
    · intro h
      have hl : l = [] := h
      rw [hl]

theorem str_ne_empty_iff (s : String) : s ≠ "" ↔ s.data ≠ [] :=
  not_congr (str_eq_empty_iff s)

/-! ### Topic Gate — `is_fleetworthy_related` in `app.py` -/

/-- The fixed keyword set of `is_fleetworthy_related` (`app.py`). -/
def fleetworthy_keywords : List String :=
  ["fleet", "truck", "trucking", "transportation", "logistics", "delivery",
   "route", "fuel", "driver", "vehicle", "dispatch", "maintenance",
   "tracking", "gps", "shipping", "cargo", "freight", "load",
   "fleetworthy", "cost", "efficiency", "optimization", "management",
   "safety", "compliance", "eld", "hours of service", "dot"]

/-- `is_fleetworthy_related` (`app.py`): lowercase the question and test each
keyword for substring occurrence. -/
def is_fleetworthy_related (question : String) : Bool :=
  fleetworthy_keywords.any (fun keyword => substrIn keyword (pyLower question))

/-- Claim C2: the Topic Gate returns true iff the lowercased question contains
at least one keyword of the fixed keyword set as a contiguous substring; it is
a total (hence never-failing, deterministic) Lean function, and the empty
question is rejected. -/
theorem topic_gate_substring_iff (question : String) :
    (is_fleetworthy_related question = true ↔
      ∃ keyword ∈ fleetworthy_keywords,
        ∃ pre post, pre ++ keyword.data ++ post = (pyLower question).data)
    ∧ is_fleetworthy_related "" = false := by
  constructor
  · simp [is_fleetworthy_related, List.any_eq_true, substrIn, occursIn_iff]
  · decide

/-! ### Research agents — `agents/research_agent.py` -/

/-- The `file_info` dictionary built by the `chat` endpoint (`app.py`):
keys `name`, `type`, `size`, `saved_path`. -/
structure FileInfo where
  name : String
  ftype : Option String
  size : Nat
  saved_path : String
deriving DecidableEq

/-- The `context` dictionary passed to `research_question`
(keys `company_website`, `company_description`, `file_info`). -/
structure RContext where
  company_website : String
  company_description : String
  file_info : Option FileInfo
deriving DecidableEq

/-- `SimpleResearchAgent.research_company`: the deterministic fallback
template, after the trailing `.strip()` (the f-string literal begins and ends
with fixed whitespace, so stripping removes exactly that). -/
def simple_research_company (company_website company_description : String) : String :=
  "Based on my research of " ++ company_website ++ ":\n        \n        🔍 **Company Analysis:**\n        - Website: "
    ++ company_website
    ++ "\n        - Description: "
    ++ (if company_description ≠ "" then company_description else "No description provided")
    ++ "\n        \n        📊 **Potential Fleetworthy Applications:**\n        - Fleet management optimization\n        - Route planning and fuel efficiency\n        - Maintenance scheduling\n        - Driver performance monitoring\n        \n        💡 **Recommended Next Steps:**\n        - Conduct a fleet audit to identify specific inefficiencies\n        - Implement GPS tracking for real-time visibility\n        - Set up predictive maintenance schedules\n        \n        *Note: This is a simplified response. Advanced research capabilities coming soon!*"

/-- The `company_info` fragment computed by
`SimpleResearchAgent.research_question` from its optional context argument. -/
def simple_company_info : Option RContext → String
  | none => ""
  | some ctx =>
    if ctx.company_website ≠ "" ∨ ctx.company_description ≠ "" then
      "\nCompany context: " ++ ctx.company_website ++ " - " ++ ctx.company_description
    else ""

/-- `SimpleResearchAgent.research_question`: the deterministic fallback
template, after the trailing `.strip()`. -/
def simple_research_question (question : String) (context : Option RContext) : String :=
  "Regarding your question: \x22" ++ question ++ "\x22" ++ simple_company_info context
    ++ "\n        \n        🚛 **Fleetworthy Solutions:**\n        \n        **Fuel Cost Reduction:**\n        - Advanced route optimization algorithms\n        - Real-time traffic and weather integration\n        - Driver behavior monitoring and coaching\n        - Predictive maintenance to ensure optimal engine performance\n        \n        **Operational Efficiency:**\n        - Automated dispatch and scheduling\n        - Load optimization tools\n        - Electronic logging device (ELD) compliance\n        - Integration with existing transportation management systems\n        \n        **Cost Savings Potential:**\n        - Typical customers see 15-25% reduction in fuel costs\n        - 20-30% improvement in on-time deliveries\n        - 40% reduction in paperwork and administrative tasks\n        \n        📞 **Next Steps:**\n        I\x27d recommend scheduling a demo to see how these solutions would work specifically for your operation.\n        \n        *Note: Advanced web research and personalized recommendations coming soon!*"

/-- Observable collaborator-facing events of one orchestration run:
construction of the research agent and each `Runner.run` invocation of the
Agent Runtime Collaborator. -/
inductive AgentEvent where
  | createAgent (sdkAvailable : Bool)
  | runnerCompany (company_website company_description : String)
  | runnerQuestion (question : String) (context : Option RContext)
deriving DecidableEq

/-- Process environment of the research-agent layer: whether the OpenAI
Agents SDK imported (`AGENTS_SDK_AVAILABLE`), and the outcome of each
`Runner.run` call of the Agent Runtime Collaborator (`Except.error` models a
raised exception: timeout, tool failure, missing credentials). -/
structure AgentWorld where
  sdkAvailable : Bool
  runnerCompany : String → String → Except Unit String
  runnerQuestion : String → Option RContext → Except Unit String

/-- `MCPResearchAgent.research_company`: run the collaborator; on any
exception fall back to `SimpleResearchAgent.research_company` for this call
only.  The event records that the collaborator was invoked. -/
def mcp_research_company (w : AgentWorld) (company_website company_description : String) :
    String × List AgentEvent :=
  match w.runnerCompany company_website company_description with
  | Except.ok s => (s, [AgentEvent.runnerCompany company_website company_description])
  | Except.error _ =>
    (simple_research_company company_website company_description,
     [AgentEvent.runnerCompany company_website company_description])

/-- `MCPResearchAgent.research_question`: run the collaborator; on any
exception fall back to `SimpleResearchAgent.research_question` for this call
only. -/
def mcp_research_question (w : AgentWorld) (question : String) (context : Option RContext) :
    String × List AgentEvent :=
  match w.runnerQuestion question context with
  | Except.ok s => (s, [AgentEvent.runnerQuestion question context])
  | Except.error _ =>
    (simple_research_question question context,
     [AgentEvent.runnerQuestion question context])

/-- `create_research_agent` + `research_company` dispatch: the MCP agent when
the SDK imported, else the fallback agent (which makes no collaborator call). -/
def agent_research_company (w : AgentWorld) (company_website company_description : String) :
    String × List AgentEvent :=
  if w.sdkAvailable = true then mcp_research_company w company_website company_description
  else (simple_research_company company_website company_description, [])

/-- `create_research_agent` + `research_question` dispatch. -/
def agent_research_question (w : AgentWorld) (question : String) (context : Option RContext) :
    String × List AgentEvent :=
  if w.sdkAvailable = true then mcp_research_question w question context
  else (simple_research_question question context, [])

/-! ### Research Orchestrator — `generate_ai_response_async` in `app.py` -/

/-- The fixed out-of-domain refusal returned when the Topic Gate rejects. -/
def out_of_domain_refusal : String :=
  "Sorry, but I can only help with questions about Fleetworthy\x27s fleet management solutions. Please ask me about our transportation, logistics, or fleet management services!"

/-- The visible separator used to concatenate question research and company
research in `generate_ai_response_async`. -/
def company_insights_separator : String :=
  "\n\n---\n\n**Additional Company Insights:**\n"

/-- `generate_ai_response_async` (`app.py`): gate, optional company research,
question research, concatenation.  Returns the response string together with
the list of collaborator-facing events of the run. -/
def generate_ai_response_async (w : AgentWorld)
    (question company_website company_description : String)
    (file_info : Option FileInfo) : String × List AgentEvent :=
  if is_fleetworthy_related question = false then
    (out_of_domain_refusal, [])
  else
    let context : Option RContext := some ⟨company_website, company_description, file_info⟩
    if company_website ≠ "" ∨ company_description ≠ "" then
      let cr := agent_research_company w company_website company_description
      let qr := agent_research_question w question context
      (qr.1 ++ company_insights_separator ++ cr.1,
       AgentEvent.createAgent w.sdkAvailable :: (cr.2 ++ qr.2))
    else
      let qr := agent_research_question w question context
      (qr.1, AgentEvent.createAgent w.sdkAvailable :: qr.2)

/-! ### Shape of the fallback output -/

/-- A response is shaped like the fallback question template when it starts
with the template's fixed head. -/
def fallback_shaped (s : String) : Bool :=
  leadsWith ("Regarding your question: ").data s.data

theorem leadsWith_append (p rest : List Char) : leadsWith p (p ++ rest) = true := by
  rw [leadsWith_iff]
  exact ⟨rest, rfl⟩

set_option maxRecDepth 8192 in
theorem srq_data_decomp (question : String) (context : Option RContext) :
    ∃ rest, (simple_research_question question context).data =
      ("Regarding your question: ").data ++ rest := by
  have h22 : ("Regarding your question: \x22" : String).data
      = ("Regarding your question: ").data ++ ['\x22'] := by decide
  simp only [simple_research_question, str_data_append, h22, List.append_assoc]
  exact ⟨_, rfl⟩

theorem shaped_and_ne_of_decomp (s : String)
    (h : ∃ rest, s.data = ("Regarding your question: ").data ++ rest) :
    fallback_shaped s = true ∧ s ≠ "" := by
  obtain ⟨rest, hr⟩ := h
  constructor
  · unfold fallback_shaped
    rw [hr]
    exact leadsWith_append _ _
  · rw [str_ne_empty_iff, hr]
    simp

/-- Claim C1: with the Agent Runtime Collaborator unavailable for the whole
process (the fallback agent selected), the orchestrator is a total function
whose answer to any non-empty in-domain question is exactly the deterministic
fallback composition, is shaped like the fallback template, and is non-empty. -/
theorem fallback_answer_total (w : AgentWorld)
    (question company_website company_description : String) (file_info : Option FileInfo)
    (hsdk : w.sdkAvailable = false)
    (hne : question ≠ "")
    (hdom : is_fleetworthy_related question = true) :
    (generate_ai_response_async w question company_website company_description file_info).1 =
      (if company_website ≠ "" ∨ company_description ≠ "" then
        simple_research_question question (some ⟨company_website, company_description, file_info⟩)
          ++ company_insights_separator
          ++ simple_research_company company_website company_description
      else
        simple_research_question question (some ⟨company_website, company_description, file_info⟩))
    ∧ fallback_shaped
        (generate_ai_response_async w question company_website company_description file_info).1 = true
    ∧ (generate_ai_response_async w question company_website company_description file_info).1 ≠ "" := by
  have hmain : (generate_ai_response_async w question company_website company_description file_info).1 =
      (if company_website ≠ "" ∨ company_description ≠ "" then
        simple_research_question question (some ⟨company_website, company_description, file_info⟩)
          ++ company_insights_separator
          ++ simple_research_company company_website company_description
      else
        simple_research_question question (some ⟨company_website, company_description, file_info⟩)) := by
    by_cases hc : company_website ≠ "" ∨ company_description ≠ ""
    · simp [generate_ai_response_async, hdom, hc, agent_research_company,
        agent_research_question, hsdk]
    · simp [generate_ai_response_async, hdom, hc, agent_research_question, hsdk]
  refine ⟨hmain, ?_⟩
  rw [hmain]
  by_cases hc : company_website ≠ "" ∨ company_description ≠ ""
  · rw [if_pos hc]
    apply shaped_and_ne_of_decomp
    obtain ⟨rest, hr⟩ :=
      srq_data_decomp question (some ⟨company_website, company_description, file_info⟩)
    refine ⟨rest ++ (company_insights_separator
      ++ simple_research_company company_website company_description).data, ?_⟩
    rw [str_data_append, str_data_append, hr]
    simp [List.append_assoc]
  · rw [if_neg hc]
    exact shaped_and_ne_of_decomp _
      (srq_data_decomp question (some ⟨company_website, company_description, file_info⟩))

/-- A process environment in which the Agent Runtime Collaborator is entirely
unavailable: the SDK did not import and every runner call would fail. -/
def w0 : AgentWorld :=
  ⟨false, fun _ _ => Except.error (), fun _ _ => Except.error ()⟩

/-- Witness for C1 at the concrete in-domain question `"fuel"`. -/
theorem fallback_answer_total_witness :
    (generate_ai_response_async w0 "fuel" "" "" none).1 ≠ "" :=
  (fallback_answer_total w0 "fuel" "" "" none rfl (by decide) (by decide)).2.2

/-- Claim C3: a question rejected by the Topic Gate yields the fixed refusal
string immediately, with an empty event trace: no research agent is
constructed and no collaborator is invoked. -/
theorem refusal_immediate_no_calls (w : AgentWorld)
    (question company_website company_description : String) (file_info : Option FileInfo)
    (h : is_fleetworthy_related question = false) :
    generate_ai_response_async w question company_website company_description file_info =
      (out_of_domain_refusal, []) := by
  simp [generate_ai_response_async, h]

/-- Witness for C3 at the concrete out-of-domain question. -/
theorem refusal_immediate_no_calls_witness :
    generate_ai_response_async w0 "Tell me about the weather" "" "" none =
      (out_of_domain_refusal, []) :=
  refusal_immediate_no_calls w0 "Tell me about the weather" "" "" none (by decide)

/-- Claim C4: with the SDK available, an exception in one Agent Runtime
Collaborator call is replaced by the Fallback Responder's text for that call
only: a failed company research still combines with a successful question
research, and vice versa. -/
theorem mcp_per_call_fallback (w : AgentWorld)
    (question company_website company_description : String) (file_info : Option FileInfo)
    (hsdk : w.sdkAvailable = true)
    (hdom : is_fleetworthy_related question = true)
    (hc : company_website ≠ "" ∨ company_description ≠ "") :
    (∀ s, w.runnerCompany company_website company_description = Except.error () →
      w.runnerQuestion question (some ⟨company_website, company_description, file_info⟩) =
        Except.ok s →
      (generate_ai_response_async w question company_website company_description file_info).1 =
        s ++ company_insights_separator
          ++ simple_research_company company_website company_description)
    ∧ (∀ s, w.runnerQuestion question (some ⟨company_website, company_description, file_info⟩) =
        Except.error () →
      w.runnerCompany company_website company_description = Except.ok s →
      (generate_ai_response_async w question company_website company_description file_info).1 =
        simple_research_question question (some ⟨company_website, company_description, file_info⟩)
          ++ company_insights_separator ++ s) := by
  constructor
  · intro s hce hqo
    simp [generate_ai_response_async, hdom, hc, agent_research_company, agent_research_question,
      hsdk, mcp_research_company, mcp_research_question, hce, hqo]
  · intro s hqe hco
    simp [generate_ai_response_async, hdom, hc, agent_research_company, agent_research_question,
      hsdk, mcp_research_company, mcp_research_question, hqe, hco]

/-- A process environment in which the SDK imported, company research raises,
and question research succeeds. -/
def w4 : AgentWorld :=
  ⟨true, fun _ _ => Except.error (),
    fun _ _ => Except.ok "Question research from the collaborator."⟩

/-- Witness for C4: company research fails, question research succeeds, and
the response combines the collaborator's question text with the fallback
company text. -/
theorem mcp_per_call_fallback_witness :
    (generate_ai_response_async w4 "fuel" "https://example.com" "" none).1 =
      "Question research from the collaborator." ++ company_insights_separator
        ++ simple_research_company "https://example.com" "" :=
  (mcp_per_call_fallback w4 "fuel" "https://example.com" "" none rfl (by decide)
    (Or.inl (by decide))).1 "Question research from the collaborator." rfl rfl

/-- An Agent Runtime environment with the SDK unavailable, abstracting over
every collaborator outcome. -/
def fallbackAgentWorld (rc : String → String → Except Unit String)
    (rq : String → Option RContext → Except Unit String) : AgentWorld :=
  ⟨false, rc, rq⟩

/-- Claim C8: the Fallback Responder is deterministic.  With the fallback
agent selected, the research outputs are independent of every collaborator
oracle (hence of any network response or randomness), and the event trace is
empty (no collaborator call is made); both operations are total Lean
functions (no failure modes). -/
theorem fallback_responder_deterministic
    (rc1 rc2 : String → String → Except Unit String)
    (rq1 rq2 : String → Option RContext → Except Unit String)
    (company_website company_description question : String) (context : Option RContext) :
    agent_research_company (fallbackAgentWorld rc1 rq1) company_website company_description =
      agent_research_company (fallbackAgentWorld rc2 rq2) company_website company_description
    ∧ (agent_research_company (fallbackAgentWorld rc1 rq1) company_website
        company_description).2 = []
    ∧ agent_research_question (fallbackAgentWorld rc1 rq1) question context =
        agent_research_question (fallbackAgentWorld rc2 rq2) question context
    ∧ (agent_research_question (fallbackAgentWorld rc1 rq1) question context).2 = [] := by
  simp [agent_research_company, agent_research_question, fallbackAgentWorld]

/-- `question_research in haystack` test for the orchestrator's separator. -/
def contains_separator (s : String) : Bool :=
  substrIn company_insights_separator s

/-- A process environment in which the SDK imported and the question-research
collaborator returns exactly the separator text. -/
def w5 : AgentWorld :=
  ⟨true, fun _ _ => Except.error (), fun _ _ => Except.ok company_insights_separator⟩

/-- Counterexample to C5 as stated: an in-domain request with no company
fields whose response (the collaborator's question-research text) does
contain the separator substring. -/
theorem orchestrator_no_separator_counterexample :
    (generate_ai_response_async w5 "fuel" "" "" none).1 = company_insights_separator
    ∧ contains_separator (generate_ai_response_async w5 "fuel" "" "" none).1 = true := by
  decide

/-- The concrete end-to-end scenario 1 question of the specification. -/
def scenario1_question : String :=
  "How can Fleetworthy help reduce my fuel costs?"

set_option maxRecDepth 200000 in
/-- Claim C5 (amended): with company context the response is question research
concatenated to company research through the separator; without company
context it is the question research alone — the orchestrator inserts no
separator, though the collaborator's own text may contain one; in particular
the scenario-1 fallback response contains no separator substring. -/
theorem orchestrator_concatenation (w : AgentWorld)
    (question company_website company_description : String) (file_info : Option FileInfo)
    (hdom : is_fleetworthy_related question = true) :
    ((company_website ≠ "" ∨ company_description ≠ "") →
      (generate_ai_response_async w question company_website company_description file_info).1 =
        (agent_research_question w question
            (some ⟨company_website, company_description, file_info⟩)).1
          ++ company_insights_separator
          ++ (agent_research_company w company_website company_description).1)
    ∧ (company_website = "" → company_description = "" →
      (generate_ai_response_async w question company_website company_description file_info).1 =
        (agent_research_question w question
            (some ⟨company_website, company_description, file_info⟩)).1)
    ∧ contains_separator (generate_ai_response_async w0 scenario1_question "" "" none).1 =
        false := by
  refine ⟨?_, ?_, ?_⟩
  · intro hc
    simp [generate_ai_response_async, hdom, hc]
  · intro h1 h2
    simp [generate_ai_response_async, hdom, h1, h2]
  · decide

/-- Witness for C5 (amended) at the fallback environment with no company
fields. -/
theorem orchestrator_concatenation_witness :
    (generate_ai_response_async w0 "fuel" "" "" none).1 =
      (agent_research_question w0 "fuel" (some ⟨"", "", none⟩)).1 :=
  (orchestrator_concatenation w0 "fuel" "" "" none (by decide)).2.1 rfl rfl

/-! ### Knowledge base — `services/knowledge_base.py` -/

/-- One raw result row of the ChromaDB `collection.query` call: a document
chunk, its metadata, and the collaborator-reported distance. -/
structure ChromaItem where
  content : String
  source : String
  document_type : String
  distance : ℚ
deriving DecidableEq

/-- Environment of `FleetworthyKnowledgeBase`: whether an OpenAI client is
configured, the outcome of the embedding+`collection.query` step (an
`Except.error` models any exception in the `search_knowledge` try block), and
the outcome of the chat-completion call keyed by its two prompts. -/
structure KBWorld where
  hasOpenAIClient : Bool
  queryOutcome : String → Nat → Except Unit (List ChromaItem)
  completionOutcome : String → String → Except Unit String

/-- One formatted result of `search_knowledge`: the relevance score is
`1 - distance`, with no clamping. -/
structure SearchResult where
  content : String
  source : String
  document_type : String
  relevance_score : ℚ
deriving DecidableEq

/-- `FleetworthyKnowledgeBase.search_knowledge`: query the collaborator and
format the rows; any exception is caught and yields the empty list. -/
def search_knowledge (w : KBWorld) (query : String) (n_results : Nat) : List SearchResult :=
  match w.queryOutcome query n_results with
  | Except.ok items =>
    items.map (fun it => ⟨it.content, it.source, it.document_type, 1 - it.distance⟩)
  | Except.error _ => []

/-- The accumulation loop of `get_relevant_context`: include a chunk while the
running total of chunk content lengths stays within the budget, and `break`
at the first chunk that would exceed it. -/
def context_parts : List SearchResult → Nat → Nat → List String
  | [], _, _ => []
  | r :: rest, current_length, budget =>
    if current_length + pyLen r.content ≤ budget then
      ("From " ++ r.source ++ ": " ++ r.content)
        :: context_parts rest (current_length + pyLen r.content) budget
    else []

/-- `FleetworthyKnowledgeBase.get_relevant_context`. -/
def get_relevant_context (w : KBWorld) (query : String) (max_context_length : Nat) : String :=
  let results := search_knowledge w query 5
  if results.isEmpty then ""
  else joinWith "\n\n" (context_parts results 0 max_context_length)

/-- The fixed system prompt of `generate_enhanced_response`. -/
def enhanced_system_prompt : String :=
  "You are a friendly Fleetworthy sales agent. Use the provided company knowledge and web research to give helpful, conversational responses about Fleetworthy\x27s services.\n\nKeep responses to 2-4 sentences and focus on specific benefits that match the customer\x27s needs."

/-- The user prompt of `generate_enhanced_response`. -/
def enhanced_user_prompt (question kb_context web_research : String) : String :=
  "Question: " ++ question ++ "\n\nFleetworthy Company Knowledge:\n" ++ kb_context
    ++ "\n\nWeb Research Context:\n" ++ web_research
    ++ "\n\nPlease provide a helpful, conversational response about how Fleetworthy can help."

/-- `FleetworthyKnowledgeBase.generate_enhanced_response`: without an OpenAI
client return the web research unchanged; otherwise retrieve context, run one
completion, and return its stripped text, falling back to the web research on
any exception. -/
def generate_enhanced_response (w : KBWorld) (question web_research : String) : String :=
  if w.hasOpenAIClient = false then web_research
  else
    let kb_context := get_relevant_context w question 2000
    match w.completionOutcome enhanced_system_prompt
        (enhanced_user_prompt question kb_context web_research) with
    | Except.ok content => pyStrip content
    | Except.error _ => web_research

/-- A knowledge-base environment with an OpenAI client in which similarity
search raises and the completion succeeds. -/
def w6 : KBWorld :=
  ⟨true, fun _ _ => Except.error (),
    fun _ _ => Except.ok "Enhanced answer from the completion."⟩

/-- Counterexample to C6 as stated: when the Semantic Search Collaborator
fails but a completion collaborator is configured and succeeds, the function
returns the completion text, not the base answer. -/
theorem augmentation_base_counterexample :
    search_knowledge w6 "q" 5 = []
    ∧ generate_enhanced_response w6 "q" "base answer" = "Enhanced answer from the completion."
    ∧ generate_enhanced_response w6 "q" "base answer" ≠ "base answer" := by
  decide

/-- Claim C6 (amended): the knowledge augmentation operation is a total
function; when no completion collaborator is configured, or when the
completion call fails, it returns the base answer exactly unchanged.  (A
similarity-search failure alone degrades to an empty retrieved context and
the completion result is still returned.) -/
theorem enhanced_response_returns_base (w : KBWorld) (question web_research : String)
    (h : w.hasOpenAIClient = false ∨
      w.completionOutcome enhanced_system_prompt
        (enhanced_user_prompt question (get_relevant_context w question 2000) web_research) =
        Except.error ()) :
    generate_enhanced_response w question web_research = web_research := by
  rcases h with h | h
  · simp [generate_enhanced_response, h]
  · by_cases hc : w.hasOpenAIClient = false
    · simp [generate_enhanced_response, hc]
    · simp [generate_enhanced_response, hc, h]

/-- A knowledge-base environment without a completion collaborator. -/
def w6b : KBWorld :=
  ⟨false, fun _ _ => Except.error (), fun _ _ => Except.error ()⟩

/-- Witness for C6 (amended): with no completion collaborator configured the
base answer comes back unchanged. -/
theorem enhanced_response_returns_base_witness :
    generate_enhanced_response w6b "fuel" "base answer" = "base answer" :=
  enhanced_response_returns_base w6b "fuel" "base answer" (Or.inl rfl)

/-! ### Greedy context assembly (C7) -/

/-- Specification-side view of the `get_relevant_context` loop: the list of
whole chunks it includes, in the returned order. -/
def included_chunks (budget : Nat) : List SearchResult → Nat → List SearchResult
  | [], _ => []
  | r :: rest, current_length =>
    if current_length + pyLen r.content ≤ budget then
      r :: included_chunks budget rest (current_length + pyLen r.content)
    else []

/-- The running total tracked by the loop: content lengths only. -/
def sum_content_lengths (l : List SearchResult) : Nat :=
  (l.map (fun r => pyLen r.content)).sum

theorem context_parts_eq_included (budget : Nat) (rs : List SearchResult) (cur : Nat) :
    context_parts rs cur budget =
      (included_chunks budget rs cur).map
        (fun r => "From " ++ r.source ++ ": " ++ r.content) := by
  induction rs generalizing cur with
  | nil => simp [context_parts, included_chunks]
  | cons r rest ih =>
    by_cases h : cur + pyLen r.content ≤ budget
    · simp [context_parts, included_chunks, h, ih]
    · simp [context_parts, included_chunks, h]

theorem included_chunks_budget (budget : Nat) (rs : List SearchResult) (cur : Nat) :
    included_chunks budget rs cur = [] ∨
      cur + sum_content_lengths (included_chunks budget rs cur) ≤ budget := by
  induction rs generalizing cur with
  | nil => exact Or.inl rfl
  | cons r rest ih =>
    by_cases h : cur + pyLen r.content ≤ budget
    · right
      rcases ih (cur + pyLen r.content) with he | hle
      · simp [included_chunks, h, he, sum_content_lengths]
      · simp only [included_chunks, if_pos h, sum_content_lengths, List.map_cons,
          List.sum_cons] at hle ⊢
        omega
    · left
      simp [included_chunks, h]

/-- Claim C7 (amended): the retrieved-context string is the greedy
concatenation, in returned order, of whole chunks (each rendered with its
source prefix), and the sum of the lengths of the included chunk contents is
bounded by the 2000-character budget; the assembled string itself additionally
carries the per-chunk prefixes and separators, so its own length may exceed
2000. -/
theorem get_relevant_context_greedy (w : KBWorld) (query : String) :
    get_relevant_context w query 2000 =
      (if (search_knowledge w query 5).isEmpty then ""
       else joinWith "\n\n" ((included_chunks 2000 (search_knowledge w query 5) 0).map
         (fun r => "From " ++ r.source ++ ": " ++ r.content)))
    ∧ sum_content_lengths (included_chunks 2000 (search_knowledge w query 5) 0) ≤ 2000 := by
  constructor
  · simp only [get_relevant_context, context_parts_eq_included]
  · rcases included_chunks_budget 2000 (search_knowledge w query 5) 0 with he | hle
    · simp [he, sum_content_lengths]
    · omega

/-- A single retrieved chunk whose content alone saturates the budget. -/
def big_chunk : ChromaItem :=
  ⟨String.mk (List.replicate 2000 'a'), "s", "sales_material", 0⟩

/-- A knowledge-base environment returning exactly `big_chunk`. -/
def w7 : KBWorld :=
  ⟨false, fun _ _ => Except.ok [big_chunk], fun _ _ => Except.error ()⟩

/-- Counterexample to C7 as stated: the assembled context string exceeds the
2000-character budget (its length is 2008: the 2000-character chunk plus the
`From s: ` prefix), because the loop counts only chunk content lengths. -/
theorem get_relevant_context_budget_counterexample :
    2000 < pyLen (get_relevant_context w7 "q" 2000) := by
  have h1 : pyLen (String.mk (List.replicate 2000 'a')) = 2000 := by
    unfold pyLen
    exact List.length_replicate 2000 'a'
  have hset : search_knowledge w7 "q" 5 =
      [⟨String.mk (List.replicate 2000 'a'), "s", "sales_material", 1 - 0⟩] := rfl
  have hcp : context_parts
      [⟨String.mk (List.replicate 2000 'a'), "s", "sales_material", 1 - 0⟩] 0 2000
      = ["From " ++ "s" ++ ": " ++ String.mk (List.replicate 2000 'a')] := by
    unfold context_parts
    rw [show ((⟨String.mk (List.replicate 2000 'a'), "s", "sales_material", 1 - 0⟩ :
        SearchResult)).content = String.mk (List.replicate 2000 'a') from rfl, h1]
    norm_num
    rfl
  have h2 : get_relevant_context w7 "q" 2000 =
      "From " ++ "s" ++ ": " ++ String.mk (List.replicate 2000 'a') := by
    show (if (search_knowledge w7 "q" 5).isEmpty then ""
      else joinWith "\n\n" (context_parts (search_knowledge w7 "q" 5) 0 2000)) = _
    rw [hset, hcp]
    rfl
  rw [h2]
  unfold pyLen
  rw [str_data_append, str_data_append, str_data_append,
    show (String.mk (List.replicate 2000 'a')).data = List.replicate 2000 'a' from rfl,
    List.length_append, List.length_append, List.length_append, List.length_replicate]
  have h8 : ("From ").data.length + ("s").data.length + (": ").data.length = 8 := by decide
  omega

/-! ### Relevance scores (C9) -/

/-- The rows the query collaborator reported, empty on failure. -/
def itemsOf : Except Unit (List ChromaItem) → List ChromaItem
  | Except.ok items => items
  | Except.error _ => []

/-- A knowledge-base environment whose query collaborator reports an
out-of-range distance of 2 (as an L2 metric may). -/
def w9 : KBWorld :=
  ⟨false, fun _ _ => Except.ok [⟨"chunk", "doc.pdf", "sales_material", 2⟩],
    fun _ _ => Except.error ()⟩

/-- Counterexample to C9 as stated: a collaborator-reported distance of 2
yields a relevance score of `1 - 2 = -1`, which is outside `[0, 1]`. -/
theorem search_scores_counterexample :
    (search_knowledge w9 "q" 5).map (fun r => r.relevance_score) = [1 - (2 : ℚ)]
    ∧ ¬ (0 ≤ (1 - (2 : ℚ))) := by
  constructor
  · rfl
  · norm_num

/-- Claim C9 (amended): every relevance score is `1 - distance` with no
clamping, so the scores lie in `[0, 1]` exactly when every
collaborator-reported distance lies in `[0, 1]`. -/
theorem search_scores_unit_interval (w : KBWorld) (query : String) (n_results : Nat)
    (h : ∀ it ∈ itemsOf (w.queryOutcome query n_results),
      0 ≤ it.distance ∧ it.distance ≤ 1) :
    ∀ r ∈ search_knowledge w query n_results,
      0 ≤ r.relevance_score ∧ r.relevance_score ≤ 1 := by
  intro r hr
  cases hq : w.queryOutcome query n_results with
  | ok items =>
    have hr2 : r ∈ items.map
        (fun it => (⟨it.content, it.source, it.document_type, 1 - it.distance⟩ : SearchResult)) := by
      simpa [search_knowledge, hq] using hr
    simp only [List.mem_map] at hr2
    obtain ⟨it, hit, hfr⟩ := hr2
    have hd := h it (by simp [itemsOf, hq, hit])
    rw [← hfr]
    constructor
    · show 0 ≤ 1 - it.distance
      linarith [hd.2]
    · show 1 - it.distance ≤ 1
      linarith [hd.1]
  | error e =>
    simp [search_knowledge, hq] at hr

/-- A knowledge-base environment whose query collaborator reports an
in-range distance of 1/2. -/
def w9b : KBWorld :=
  ⟨false, fun _ _ => Except.ok [⟨"chunk", "doc.pdf", "sales_material", 1/2⟩],
    fun _ _ => Except.error ()⟩

/-- Witness for C9 (amended) on the environment `w9b`. -/
theorem search_scores_unit_interval_witness :
    0 ≤ ((⟨"chunk", "doc.pdf", "sales_material", 1 - (1/2 : ℚ)⟩ : SearchResult)).relevance_score
    ∧ ((⟨"chunk", "doc.pdf", "sales_material", 1 - (1/2 : ℚ)⟩ :
        SearchResult)).relevance_score ≤ 1 :=
  search_scores_unit_interval w9b "q" 5
    (by
      intro it hit
      have hl : itemsOf (w9b.queryOutcome "q" 5) =
          [⟨"chunk", "doc.pdf", "sales_material", 1/2⟩] := rfl
      rw [hl] at hit
      simp only [List.mem_singleton] at hit
      subst hit
      constructor <;> norm_num)
    ⟨"chunk", "doc.pdf", "sales_material", 1 - (1/2 : ℚ)⟩
    (by
      have hs : search_knowledge w9b "q" 5 =
          [⟨"chunk", "doc.pdf", "sales_material", 1 - (1/2 : ℚ)⟩] := rfl
      rw [hs]
      exact List.mem_singleton_self _)

/-! ### Chat endpoint — `chat` in `app.py` -/

/-- The allowed upload extensions (`ALLOWED_EXTENSIONS` in `app.py`). -/
def ALLOWED_EXTENSIONS : List String :=
  ["txt", "pdf", "doc", "docx"]

/-- `MAX_CONTENT_LENGTH` in `app.py`: 5 MB. -/
def MAX_CONTENT_LENGTH : Nat :=
  5 * 1024 * 1024

/-- The characters after the last dot: Python `filename.rsplit('.', 1)[1]`
when a dot is present. -/
def afterLastDot (l : List Char) : List Char :=
  ((l.reverse.takeWhile (fun c => !(c == '.'))).reverse)

/-- `allowed_file` (`app.py`): the name contains a dot and its lowercased
final extension is on the allow-list. -/
def allowed_file (filename : String) : Bool :=
  filename.data.contains '.'
    && ALLOWED_EXTENSIONS.contains (pyLower (String.mk (afterLastDot filename.data)))

/-- `validate_url` (`app.py`): the empty optional field passes; otherwise the
URL must start with a recognised scheme. -/
def validate_url (url : String) : Bool :=
  if url = "" then true
  else leadsWith ("http://").data url.data || leadsWith ("https://").data url.data

/-- Python truthiness of an optional JSON string field: present and
non-empty. -/
def truthyStr : Option String → Bool
  | none => false
  | some s => !(s == "")

/-- Process environment of the `chat` endpoint: the research-agent
environment, the byte length produced by `base64.b64decode` (or its raised
exception), the outcome of saving the decoded file, and the timestamp used in
the saved path. -/
structure ChatWorld where
  agent : AgentWorld
  b64decodeLen : String → Except Unit Nat
  saveOutcome : String → Except Unit Unit
  timestamp : String

/-- The JSON request body of `POST /api/chat`: `none` models an absent key. -/
structure ChatRequest where
  is_json : Bool
  question : Option String
  company_website : Option String
  company_description : Option String
  file_data : Option String
  file_name : Option String
  file_type : Option String
deriving DecidableEq

/-- The endpoint's observable HTTP outcome: an error status with its message,
or the 200 payload (`message` plus the `received_data` echo fields). -/
inductive ChatResult where
  | err (status : Nat) (message : String)
  | ok (message : String) (question : String)
      (has_website has_description has_file : Bool) (file_info : Option FileInfo)
deriving DecidableEq

/-- The file-processing block of `chat`: entered only when `file_data` and
`file_name` are both truthy; validates the extension, decodes, checks the
size, and saves; any exception inside the block maps to a 400. -/
def process_file (cw : ChatWorld) (file_data file_name file_type : Option String) :
    Except String (Option FileInfo) :=
  if truthyStr file_data && truthyStr file_name then
    let fname := file_name.getD ""
    if allowed_file fname = false then
      Except.error "File type not allowed. Allowed types: txt, pdf, doc, docx"
    else
      match cw.b64decodeLen (file_data.getD "") with
      | Except.error _ => Except.error "Error processing uploaded file"
      | Except.ok file_size =>
        if MAX_CONTENT_LENGTH < file_size then
          Except.error "File too large. Maximum size is 5MB"
        else
          let file_path := "uploads/" ++ cw.timestamp ++ "_" ++ fname
          match cw.saveOutcome file_path with
          | Except.error _ => Except.error "Error processing uploaded file"
          | Except.ok _ => Except.ok (some ⟨fname, file_type, file_size, file_path⟩)
  else Except.ok none

/-- The `chat` route (`app.py`): JSON check, question check, URL check, file
processing, then the orchestrator; the 200 payload echoes
`has_website`/`has_description`/`has_file` and the file info. -/
def chat (cw : ChatWorld) (req : ChatRequest) : ChatResult :=
  if req.is_json = false then ChatResult.err 400 "Request must be JSON"
  else
    let question := pyStrip (req.question.getD "")
    if question = "" then ChatResult.err 400 "Question is required"
    else
      let company_website := pyStrip (req.company_website.getD "")
      let company_description := pyStrip (req.company_description.getD "")
      if company_website ≠ "" ∧ validate_url company_website = false then
        ChatResult.err 400 "Invalid website URL format"
      else
        match process_file cw req.file_data req.file_name req.file_type with
        | Except.error msg => ChatResult.err 400 msg
        | Except.ok file_info =>
          ChatResult.ok
            (generate_ai_response_async cw.agent question company_website
              company_description file_info).1
            question
            (!(company_website == "")) (!(company_description == ""))
            file_info.isSome file_info

/-- Claim C10: a request carrying `file_data` without `file_name` (or the
converse) skips the file block entirely: no validation error, no decode, no
save; the request behaves exactly as if no file fields were sent, and a 200
response reports `has_file = false` with no file info. -/
theorem chat_unpaired_file_ignored (cw : ChatWorld) (req : ChatRequest)
    (h : (req.file_data ≠ none ∧ req.file_name = none) ∨
      (req.file_name ≠ none ∧ req.file_data = none)) :
    chat cw req = chat cw ⟨req.is_json, req.question, req.company_website,
        req.company_description, none, none, none⟩
    ∧ process_file cw req.file_data req.file_name req.file_type = Except.ok none
    ∧ (∀ m q hw hd hf fi, chat cw req = ChatResult.ok m q hw hd hf fi →
        hf = false ∧ fi = none) := by
  have hpf : process_file cw req.file_data req.file_name req.file_type = Except.ok none := by
    rcases h with ⟨_, hn⟩ | ⟨_, hd⟩
    · simp [process_file, hn, truthyStr]
    · simp [process_file, hd, truthyStr]
  have hpf2 : process_file cw (none : Option String) (none : Option String)
      (none : Option String) = Except.ok none := by
    simp [process_file, truthyStr]
  refine ⟨?_, hpf, ?_⟩
  · simp only [chat, hpf, hpf2]
  · intro m q hw hd2 hf fi hok
    simp only [chat, hpf] at hok
    split at hok
    · exact absurd hok (by simp)
    · split at hok
      · exact absurd hok (by simp)
      · split at hok
        · exact absurd hok (by simp)
        · cases hok
          exact ⟨rfl, rfl⟩

/-- A chat environment over the fallback agent world. -/
def cw0 : ChatWorld :=
  ⟨w0, fun _ => Except.ok 4, fun _ => Except.ok (), "20250101_000000"⟩

/-- A request with `file_data` present but no `file_name`. -/
def req0 : ChatRequest :=
  ⟨true, some "How do I cut fuel costs?", none, none, some "AAAA", none, none⟩

/-- Witness for C10 on the concrete unpaired-file request. -/
theorem chat_unpaired_file_ignored_witness :
    chat cw0 req0 = chat cw0 ⟨req0.is_json, req0.question, req0.company_website,
        req0.company_description, none, none, none⟩ :=
  (chat_unpaired_file_ignored cw0 req0 (Or.inl ⟨by decide, rfl⟩)).1
